import Mathlib

/-!
Shallow embedding of `src/inc/usbd_core.h` from the libusb_stm32 USB device
core framework, together with proofs about the claims of its specification.

Machine integers are modelled as `Nat` (or `Int` for `int32_t`), with explicit
`% 2^w` truncation exactly where a C conversion truncates.  Pointers and
callback function pointers are modelled as opaque numeric handles.  The inline
API wrappers are embedded as pure functions that return the (unchanged or
updated) device record, the C return value, and the list of hardware-driver
calls the body performs, so that framing and forwarding properties can be
stated.
-/

namespace Usbd

/-! ## Constants from usbd_core.h -/

/-- Embeds `#define USB_REQ_DIRECTION (1 << 7)` -/
def USB_REQ_DIRECTION : Nat := 1 <<< 7

/-- Embeds `#define USB_REQ_TYPE (3 << 5)` -/
def USB_REQ_TYPE : Nat := 3 <<< 5

/-- Embeds `#define USB_REQ_RECIPIENT (3 << 0)` -/
def USB_REQ_RECIPIENT : Nat := 3 <<< 0

/-- Embeds `#define usbd_evt_count 9` -/
def usbd_evt_count : Nat := 9

/-! ## C struct layout model

A C struct lays its fields out sequentially: each field is placed at the
current offset rounded up to the field's alignment, and the running offset
advances by the field's size.  `usbd_ctlreq` contains only `uint8_t`
(size 1, align 1) and `uint16_t` (size 2, align 2) fields, plus the
flexible array member `data[]` of `uint8_t`. -/

/-- Round `off` up to the next multiple of alignment `al`. -/
def alignUp (off al : Nat) : Nat := ((off + al - 1) / al) * al

/-- Size and alignment of a C scalar field. -/
structure CField where
  size : Nat
  align : Nat
deriving DecidableEq, Repr

/-- Offsets assigned to a list of fields laid out from offset `off`. -/
def layoutOffsets : List CField → Nat → List Nat
  | [], _ => []
  | f :: fs, off =>
    let o := alignUp off f.align
    o :: layoutOffsets fs (o + f.size)

/-- Offset just past the last of a list of fields laid out from `off`. -/
def layoutEnd : List CField → Nat → Nat
  | [], off => off
  | f :: fs, off => layoutEnd fs (alignUp off f.align + f.size)

/-- The fixed fields of `struct _usbd_ctlreq`:
`uint8_t bmRequestType; uint8_t bRequest; uint16_t wValue; uint16_t wIndex;
uint16_t wLength;`. -/
def ctlreqFields : List CField :=
  [⟨1, 1⟩, ⟨1, 1⟩, ⟨2, 2⟩, ⟨2, 2⟩, ⟨2, 2⟩]

/-- The offsets of the five fixed fields of `struct _usbd_ctlreq`. -/
def ctlreqOffsets : List Nat := layoutOffsets ctlreqFields 0

/-- Embeds `__builtin_offsetof(usbd_ctlreq, data)`: the flexible array member
`uint8_t data[]` (align 1) is placed right after the fixed fields. -/
def ctlreq_data_offset : Nat := alignUp (layoutEnd ctlreqFields 0) 1

/-! ## Data model -/

/-- Pointers and callback function pointers are opaque numeric handles. -/
abbrev Ptr := Nat

/-- A call into the hardware driver call table, as performed by one of the
inline API wrappers.  Arguments are recorded as passed. -/
inductive DrvCall where
  | epConfig (ep eptype epsize : Nat)
  | epDeconfig (ep : Nat)
  | epRead (ep : Nat) (buf : Ptr) (blen : Nat)
  | epWrite (ep : Nat) (buf : Ptr) (blen : Nat)
  | epSetstall (ep : Nat) (stall : Bool)
deriving DecidableEq, Repr

/-- The result-producing operations of `struct usbd_driver` (the hardware
call table), modelled as pure functions.  Operations that only have side
effects on the hardware (`enable`, `reset`, `connect`, `setaddr`,
`ep_deconfig`, `ep_setstall`, `poll`) return nothing and are observed only
through the recorded `DrvCall` traces of their callers. -/
structure usbd_driver where
  /-- Embeds `bool ep_config(uint8_t ep, uint8_t eptype, uint16_t epsize)` -/
  ep_config : Nat → Nat → Nat → Bool
  /-- Embeds `int32_t ep_read(uint8_t ep, void *buf, uint16_t blen)` -/
  ep_read : Nat → Ptr → Nat → Int
  /-- Embeds `int32_t ep_write(uint8_t ep, void *buf, uint16_t blen)` -/
  ep_write : Nat → Ptr → Nat → Int
  /-- Embeds `bool ep_isstalled(uint8_t ep)` -/
  ep_isstalled : Nat → Bool
  /-- Embeds `uint16_t frame_no(void)` -/
  frame_no : Nat

/-- Embeds `struct _usbd_status` -/
structure usbd_status where
  data_buf : Ptr
  data_ptr : Ptr
  data_count : Nat
  data_maxsize : Nat
  ep0size : Nat
  device_cfg : Nat
  device_state : Nat
  control_state : Nat
deriving DecidableEq, Repr

/-- Embeds `struct _usbd_device`.  The callback slots hold opaque handles; the
`events[usbd_evt_count]` and `endpoint[8]` C arrays are modelled as total
maps from the raw (unchecked) C array index, so that the index arithmetic
of the registration functions can be reasoned about separately from the
array bounds. -/
structure usbd_device where
  driver : usbd_driver
  control_callback : Ptr
  complete_callback : Ptr
  config_callback : Ptr
  descriptor_callback : Ptr
  events : Nat → Ptr
  endpoint : Nat → Ptr
  status : usbd_status

/-- Number of entries of the `endpoint` array of `struct _usbd_device`:
`usbd_evt_callback endpoint[8]`. -/
def endpoint_table_size : Nat := 8

/-- Number of entries of the `events` array of `struct _usbd_device`:
`usbd_evt_callback events[usbd_evt_count]`. -/
def events_table_size : Nat := usbd_evt_count

/-! ## Inline API functions -/

/-- Embeds `usbd_init(dev, drv, ep0size, buffer, bsize)`.

```c
dev->driver = drv;
dev->status.ep0size = ep0size;
dev->status.data_ptr = buffer;
dev->status.data_buf = buffer;
dev->status.data_maxsize = bsize - __builtin_offsetof(usbd_ctlreq, data);
```

`ep0size` is a `uint8_t` and `bsize` a `uint16_t` parameter, so both are
truncated at the call boundary; the subtraction is evaluated in an
unsigned type and the result stored into the `uint16_t` field
`data_maxsize`, i.e. it wraps modulo `2^16`. -/
def usbd_init (dev : usbd_device) (drv : usbd_driver) (ep0size : Nat)
    (buffer : Ptr) (bsize : Nat) : usbd_device :=
  { dev with
    driver := drv
    status := { dev.status with
      ep0size := ep0size % 256
      data_ptr := buffer
      data_buf := buffer
      data_maxsize := (bsize % 65536 + 65536 - ctlreq_data_offset) % 65536 } }

/-- The array index written by `usbd_reg_endpoint`: `ep & 0x07`. -/
def usbd_reg_endpoint_index (ep : Nat) : Nat := ep &&& 0x07

/-- Embeds `usbd_reg_endpoint(dev, ep, cb)`: `dev->endpoint[ep & 0x07] = callback;` -/
def usbd_reg_endpoint (dev : usbd_device) (ep : Nat) (callback : Ptr) :
    usbd_device :=
  { dev with
    endpoint := Function.update dev.endpoint (usbd_reg_endpoint_index ep) callback }

/-- The array index written by `usbd_reg_event`: the raw `evt`, unmasked. -/
def usbd_reg_event_index (evt : Nat) : Nat := evt

/-- Embeds `usbd_reg_event(dev, evt, cb)`: `dev->events[evt] = callback;` (no mask,
no bounds check). -/
def usbd_reg_event (dev : usbd_device) (evt : Nat) (callback : Ptr) :
    usbd_device :=
  { dev with
    events := Function.update dev.events (usbd_reg_event_index evt) callback }

/-- Result of an inline wrapper body: the device record after the call (these
wrappers never assign to `dev`, so it is returned as received), the C return
value, and the driver calls performed by the body. -/
structure WrapOut (α : Type) where
  dev : usbd_device
  ret : α
  calls : List DrvCall

/-- Embeds `usbd_ep_config(dev, ep, eptype, epsize)`:
`return dev->driver->ep_config(ep, eptype, epsize);` — a single tail call,
result returned unchanged (`bool` to `bool`). -/
def usbd_ep_config (dev : usbd_device) (ep eptype epsize : Nat) :
    WrapOut Bool :=
  ⟨dev, dev.driver.ep_config ep eptype epsize, [.epConfig ep eptype epsize]⟩

/-- Embeds `usbd_ep_deconfig(dev, ep)`: `dev->driver->ep_deconfig(ep);` -/
def usbd_ep_deconfig (dev : usbd_device) (ep : Nat) : WrapOut Unit :=
  ⟨dev, (), [.epDeconfig ep]⟩

/-- Embeds `usbd_ep_write(dev, ep, buf, blen)`:
`return dev->driver->ep_write(ep, buf, blen);` — the driver returns
`int32_t` but the wrapper's return type is `uint16_t`, so the value is
converted modulo `2^16`. -/
def usbd_ep_write (dev : usbd_device) (ep : Nat) (buf : Ptr) (blen : Nat) :
    WrapOut Nat :=
  ⟨dev, ((dev.driver.ep_write ep buf blen) % 65536).toNat, [.epWrite ep buf blen]⟩

/-- Embeds `usbd_ep_read(dev, ep, buf, blen)`:
`return dev->driver->ep_read(ep, buf, blen);` — the driver returns
`int32_t` but the wrapper's return type is `uint16_t`, so the value is
converted modulo `2^16`. -/
def usbd_ep_read (dev : usbd_device) (ep : Nat) (buf : Ptr) (blen : Nat) :
    WrapOut Nat :=
  ⟨dev, ((dev.driver.ep_read ep buf blen) % 65536).toNat, [.epRead ep buf blen]⟩

/-- Embeds `usbd_ep_stall(dev, ep)`: `dev->driver->ep_setstall(ep, 1);` — the C
literal `1` converts to the `bool` argument `true`. -/
def usbd_ep_stall (dev : usbd_device) (ep : Nat) : WrapOut Unit :=
  ⟨dev, (), [.epSetstall ep true]⟩

/-- Embeds `usbd_ep_unstall(dev, ep)`: `dev->driver->ep_setstall(ep, 0);` — the C
literal `0` converts to the `bool` argument `false`. -/
def usbd_ep_unstall (dev : usbd_device) (ep : Nat) : WrapOut Unit :=
  ⟨dev, (), [.epSetstall ep false]⟩

/-! ## Control transfer state machine (modelled from the spec)

The header declares `void usbd_poll(usbd_device *dev);` but its body (the
control transfer state machine of `usbd_core.c`) is not among the sources,
so the machine below is modelled from the specification's description of
the SETUP / DATA / STATUS sequencing. -/

/-- Embeds `enum usbd_ctl_state` from usbd_core.h. -/
inductive CtlState where
  | idle       -- usbd_ctl_idle
  | rxdata     -- usbd_ctl_rxdata
  | txdata     -- usbd_ctl_txdata
  | ztxdata    -- usbd_ctl_ztxdata
  | lastdata   -- usbd_ctl_lastdata
  | statusin   -- usbd_ctl_statusin
  | statusout  -- usbd_ctl_statusout
deriving DecidableEq, Repr

/-- The fixed fields of `struct _usbd_ctlreq` as values. -/
structure CtlRequest where
  bmRequestType : Nat
  bRequest : Nat
  wValue : Nat
  wIndex : Nat
  wLength : Nat
deriving DecidableEq, Repr

/-- An endpoint-0 event delivered by the event dispatcher to the control
state machine: a received SETUP packet, a TX-complete, or an RX-complete. -/
inductive Ep0Event where
  | setup (req : CtlRequest)
  | eptx
  | eprx
deriving DecidableEq, Repr

/-- A hardware-driver call performed by the modelled control state machine. -/
inductive HwCall where
  | write (len : Nat)            -- ep_write on endpoint 0 of `len` bytes
  | read                         -- ep_read on endpoint 0
  | setaddr (addr : Nat)         -- hardware setaddr
  | stall                        -- ep_setstall(0, true)
deriving DecidableEq, Repr

/-- Modelled from the spec: the USB standard request code SET_ADDRESS (0x05)
is not defined in usbd_core.h (it lives in the usb_std.h header that is not
among the sources). -/
def USB_STD_SET_ADDRESS : Nat := 0x05

/-- A SETUP packet carrying a standard SET_ADDRESS request: host-to-device,
device recipient (`bmRequestType == 0`), request code SET_ADDRESS, and no
data stage (`wLength == 0`). -/
def isSetAddress (req : CtlRequest) : Bool :=
  req.bmRequestType == 0 && req.bRequest == USB_STD_SET_ADDRESS &&
    req.wLength == 0

/-- The part of `_usbd_status` the modelled control machine acts on, plus
the pending deferred address of an in-flight SET_ADDRESS transfer. -/
structure CtlMachine where
  control_state : CtlState
  data_count : Nat
  pending_addr : Option Nat
deriving DecidableEq, Repr

/-- The idle machine: awaiting a SETUP packet, nothing pending. -/
def ctlIdle : CtlMachine := ⟨.idle, 0, none⟩

/-- Stall endpoint 0 and force the machine back to idle. -/
def ctlStall : CtlMachine × List HwCall := (⟨.idle, 0, none⟩, [.stall])

/-- Modelled from the spec: one transition of the control transfer state
machine of `usbd_poll` (the body of `usbd_core.c` is not among the
sources).  `mps` is the control endpoint's max packet size (`ep0size`),
`maxsize` the control data buffer capacity (`data_maxsize`), and `handler`
abstracts the control-callback chain: `none` means no handler accepted the
request (stall), `some L` means the request was accepted with a response
(or expected-data) payload of `L` bytes.

Per the spec: a SETUP always pre-empts any in-flight transfer; SET_ADDRESS
stores the pending address and defers the hardware `setaddr` call; a
device-to-host request with data enters `ztxdata` exactly when the armed
response length is a multiple of `mps` and strictly below `wLength`, and
`txdata` otherwise; each `eptx` in a TX state writes the next chunk of up
to `mps` bytes; `statusin` issues its zero-length write at entry and its
completing `eptx` applies the deferred address; protocol violations stall
endpoint 0 and return to idle. -/
def ctlStep (mps maxsize : Nat) (handler : CtlRequest → Option Nat)
    (m : CtlMachine) (e : Ep0Event) : CtlMachine × List HwCall :=
  match e with
  | .setup req =>
    if isSetAddress req then
      -- store the pending address, no data stage, enter STATUS-IN
      -- (the zero-length status write is issued at entry)
      (⟨.statusin, 0, some (req.wValue % 256)⟩, [.write 0])
    else if req.wLength == 0 then
      -- no-data request: resolve via the callback chain now
      match handler req with
      | some _ => (⟨.statusin, 0, none⟩, [.write 0])
      | none => ctlStall
    else if req.bmRequestType &&& USB_REQ_DIRECTION ≠ 0 then
      -- device-to-host: obtain the response now, arm the TX state
      match handler req with
      | some L =>
        let c := min L req.wLength
        if c % mps = 0 ∧ c < req.wLength then
          (⟨.ztxdata, c, none⟩, [])
        else
          (⟨.txdata, c, none⟩, [])
      | none => ctlStall
    else
      -- host-to-device with a data stage: arm the receive buffer
      if req.wLength ≤ maxsize then
        (⟨.rxdata, req.wLength, none⟩, [])
      else
        ctlStall
  | .eptx =>
    match m.control_state with
    | .txdata | .ztxdata =>
      let t := min m.data_count mps
      let c := m.data_count - t
      if c = 0 ∧ (m.control_state = .txdata ∨ t < mps) then
        (⟨.lastdata, 0, m.pending_addr⟩, [.write t])
      else
        (⟨m.control_state, c, m.pending_addr⟩, [.write t])
    | .lastdata => (⟨.statusout, 0, m.pending_addr⟩, [])
    | .statusin =>
      -- STATUS-IN completed: apply a deferred SET_ADDRESS here
      match m.pending_addr with
      | some a => (⟨.idle, 0, none⟩, [.setaddr a])
      | none => (⟨.idle, 0, none⟩, [])
    | _ => ctlStall
  | .eprx =>
    match m.control_state with
    | .rxdata =>
      let t := min m.data_count mps
      let c := m.data_count - t
      if c = 0 then
        -- full payload received: resolve via the chain, then STATUS-IN
        (⟨.statusin, 0, m.pending_addr⟩, [.read, .write 0])
      else
        (⟨.rxdata, c, m.pending_addr⟩, [.read])
    | .statusout => (⟨.idle, 0, none⟩, [])
    | _ => ctlStall

/-- Drive the machine with `eptx` events (the DATA-IN stage) until it
reaches `statusout` or `idle`, collecting the hardware calls. -/
def ctlRunTx (mps maxsize : Nat) (handler : CtlRequest → Option Nat) :
    Nat → CtlMachine → List HwCall
  | 0, _ => []
  | fuel + 1, m =>
    if m.control_state = .statusout ∨ m.control_state = .idle then []
    else
      let s := ctlStep mps maxsize handler m .eptx
      s.2 ++ ctlRunTx mps maxsize handler fuel s.1

/-- The number of zero-length packet writes in a hardware call trace. -/
def countZLP (calls : List HwCall) : Nat :=
  (calls.filter (· == HwCall.write 0)).length

/-! ## Concrete sample values used by witnesses and counterexamples -/

/-- A sample hardware driver whose operations all succeed. -/
def okDriver : usbd_driver :=
  ⟨fun _ _ _ => true, fun _ _ blen => (blen : Int), fun _ _ blen => (blen : Int),
    fun _ => false, 0⟩

/-- A sample device using `okDriver`, with all slots zeroed. -/
def okDevice : usbd_device :=
  ⟨okDriver, 0, 0, 0, 0, fun _ => 0, fun _ => 0, ⟨0, 0, 0, 0, 0, 0, 0, 0⟩⟩

/-- A hardware driver whose `ep_read` and `ep_write` report an error (−1). -/
def errDriver : usbd_driver :=
  ⟨fun _ _ _ => false, fun _ _ _ => (-1 : Int), fun _ _ _ => (-1 : Int),
    fun _ => false, 0⟩

/-- A sample device using `errDriver`, with all slots zeroed. -/
def errDevice : usbd_device :=
  ⟨errDriver, 0, 0, 0, 0, fun _ => 0, fun _ => 0, ⟨0, 0, 0, 0, 0, 0, 0, 0⟩⟩

/-- A sample control-callback chain answering every request with an 8-byte
response. -/
def sampleHandler : CtlRequest → Option Nat := fun _ => some 8

/-- A sample device-to-host GET_DESCRIPTOR-shaped request with
`wLength = 16`. -/
def sampleInReq : CtlRequest := ⟨0x80, 6, 0x0100, 0, 16⟩

/-! ## Helper lemmas -/

set_option maxRecDepth 4096 in
/-- Masking with `0x07` agrees with `% 8` and folds out the direction bit
`0x80`, for every 8-bit value. -/
theorem and7_facts : ∀ ep : Nat, ep < 256 →
    ep &&& 7 = ep % 8 ∧ (ep ^^^ 128) &&& 7 = ep &&& 7 := by decide

/-- Running the TX loop from `statusout` produces no calls. -/
theorem ctlRunTx_statusout (mps maxsize : Nat) (handler : CtlRequest → Option Nat)
    (fuel c : Nat) (p : Option Nat) :
    ctlRunTx mps maxsize handler fuel ⟨.statusout, c, p⟩ = [] := by
  cases fuel <;> simp [ctlRunTx]

/-- Running the TX loop from `lastdata` performs the silent transition to
`statusout` and stops. -/
theorem ctlRunTx_lastdata (mps maxsize : Nat) (handler : CtlRequest → Option Nat)
    (fuel c : Nat) (p : Option Nat) (h : 1 ≤ fuel) :
    ctlRunTx mps maxsize handler fuel ⟨.lastdata, c, p⟩ = [] := by
  match fuel, h with
  | fuel + 1, _ =>
    simp [ctlRunTx, ctlStep, ctlRunTx_statusout]

/-! ## Claims -/

/-- C1: usbd_init stores in `data_maxsize` the buffer size minus the fixed
8-byte control-request header (the offset of the `data[]` field of
`usbd_ctlreq`, whose fixed fields occupy exactly 8 bytes), and sets both
`data_buf` and `data_ptr` to the supplied buffer. -/
theorem usbd_init_capacity (dev : usbd_device) (drv : usbd_driver)
    (ep0size : Nat) (buffer : Ptr) (bsize : Nat)
    (hlo : 8 ≤ bsize) (hhi : bsize < 65536) :
    ctlreq_data_offset = 8 ∧
    (usbd_init dev drv ep0size buffer bsize).status.data_maxsize = bsize - 8 ∧
    (usbd_init dev drv ep0size buffer bsize).status.data_buf = buffer ∧
    (usbd_init dev drv ep0size buffer bsize).status.data_ptr = buffer := by
  refine ⟨by decide, ?_, rfl, rfl⟩
  have hoff : ctlreq_data_offset = 8 := by decide
  simp only [usbd_init, hoff]
  omega

/-- Witness for C1 at a concrete 32-byte buffer. -/
theorem usbd_init_capacity_witness :
    ctlreq_data_offset = 8 ∧
    (usbd_init okDevice okDriver 8 0 32).status.data_maxsize = 32 - 8 ∧
    (usbd_init okDevice okDriver 8 0 32).status.data_buf = 0 ∧
    (usbd_init okDevice okDriver 8 0 32).status.data_ptr = 0 :=
  usbd_init_capacity okDevice okDriver 8 0 32 (by decide) (by decide)

/-- C2: the claim states that usbd_ep_read returns the driver's `ep_read`
result unchanged, in particular −1 on error.  The code contradicts its own
documentation here: the wrapper is declared with return type `uint16_t`
while the driver's `ep_read` returns `int32_t`, so the error result −1 is
truncated to 65535 and the caller can never observe −1. -/
theorem usbd_ep_read_truncates_minus_one :
    errDevice.driver.ep_read 1 0 64 = -1 ∧
    (usbd_ep_read errDevice 1 0 64).ret = 65535 ∧
    ((65535 : Int) ≠ -1) := by
  refine ⟨rfl, ?_, by decide⟩
  simp [usbd_ep_read, errDevice, errDriver]

/-- C3: usbd_reg_endpoint stores the callback at endpoint-table index
`ep mod 8`; registering for `ep` and for `ep XOR 0x80` writes the same
slot, and the written index is always within the 8-entry table. -/
theorem usbd_reg_endpoint_fold (dev : usbd_device) (ep : Nat) (cb : Ptr)
    (h : ep < 256) :
    (usbd_reg_endpoint dev ep cb).endpoint (ep % 8) = cb ∧
    usbd_reg_endpoint dev ep cb = usbd_reg_endpoint dev (ep ^^^ 0x80) cb ∧
    usbd_reg_endpoint_index ep < endpoint_table_size := by
  obtain ⟨h1, h2⟩ := and7_facts ep h
  refine ⟨?_, ?_, ?_⟩
  · simp [usbd_reg_endpoint, usbd_reg_endpoint_index, h1]
  · simp only [usbd_reg_endpoint, usbd_reg_endpoint_index, h2]
  · have : ep &&& 7 ≤ 7 := Nat.and_le_right
    simp only [usbd_reg_endpoint_index, endpoint_table_size]
    omega

/-- Witness for C3 at the IN endpoint address 0x81. -/
theorem usbd_reg_endpoint_fold_witness :
    (usbd_reg_endpoint okDevice 0x81 7).endpoint (0x81 % 8) = 7 ∧
    usbd_reg_endpoint okDevice 0x81 7 = usbd_reg_endpoint okDevice (0x81 ^^^ 0x80) 7 ∧
    usbd_reg_endpoint_index 0x81 < endpoint_table_size :=
  usbd_reg_endpoint_fold okDevice 0x81 7 (by decide)

/-- C4: the control-request wire layout matches the USB specification:
`USB_REQ_DIRECTION = 0x80`, `USB_REQ_TYPE = 0x60`,
`USB_REQ_RECIPIENT = 0x03`, and the `usbd_ctlreq` fields sit at offsets
0, 1, 2, 4, 6 with the `data[]` payload at offset 8. -/
theorem ctlreq_wire_layout :
    USB_REQ_DIRECTION = 0x80 ∧ USB_REQ_TYPE = 0x60 ∧
    USB_REQ_RECIPIENT = 0x03 ∧
    ctlreqOffsets = [0, 1, 2, 4, 6] ∧ ctlreq_data_offset = 8 := by decide

/-- C5: usbd_ep_config invokes the driver's `ep_config` exactly once with
the same arguments and returns the driver's boolean outcome unchanged — a
`false` is surfaced directly, with no retry. -/
theorem usbd_ep_config_forwards (dev : usbd_device) (ep eptype epsize : Nat)
    (b : Bool) (h : dev.driver.ep_config ep eptype epsize = b) :
    (usbd_ep_config dev ep eptype epsize).ret = b ∧
    (usbd_ep_config dev ep eptype epsize).calls =
      [DrvCall.epConfig ep eptype epsize] :=
  ⟨h, rfl⟩

/-- Witness for C5 with a driver that reports failure. -/
theorem usbd_ep_config_forwards_witness :
    (usbd_ep_config errDevice 1 0 64).ret = false ∧
    (usbd_ep_config errDevice 1 0 64).calls = [DrvCall.epConfig 1 0 64] :=
  usbd_ep_config_forwards errDevice 1 0 64 false rfl

/-- C8: usbd_init assigns only `driver`, `status.ep0size`,
`status.data_ptr`, `status.data_buf` and `status.data_maxsize`; every other
field of the device — the four callback slots, the event and endpoint
tables, and the status fields `data_count`, `device_cfg`, `device_state`
and `control_state` — is left unchanged. -/
theorem usbd_init_frame (dev : usbd_device) (drv : usbd_driver)
    (ep0size : Nat) (buffer : Ptr) (bsize : Nat) :
    (usbd_init dev drv ep0size buffer bsize).driver = drv ∧
    (usbd_init dev drv ep0size buffer bsize).status.ep0size = ep0size % 256 ∧
    (usbd_init dev drv ep0size buffer bsize).status.data_ptr = buffer ∧
    (usbd_init dev drv ep0size buffer bsize).status.data_buf = buffer ∧
    (usbd_init dev drv ep0size buffer bsize).status.data_maxsize =
      (bsize % 65536 + 65536 - ctlreq_data_offset) % 65536 ∧
    (usbd_init dev drv ep0size buffer bsize).control_callback = dev.control_callback ∧
    (usbd_init dev drv ep0size buffer bsize).complete_callback = dev.complete_callback ∧
    (usbd_init dev drv ep0size buffer bsize).config_callback = dev.config_callback ∧
    (usbd_init dev drv ep0size buffer bsize).descriptor_callback = dev.descriptor_callback ∧
    (usbd_init dev drv ep0size buffer bsize).events = dev.events ∧
    (usbd_init dev drv ep0size buffer bsize).endpoint = dev.endpoint ∧
    (usbd_init dev drv ep0size buffer bsize).status.data_count = dev.status.data_count ∧
    (usbd_init dev drv ep0size buffer bsize).status.device_cfg = dev.status.device_cfg ∧
    (usbd_init dev drv ep0size buffer bsize).status.device_state = dev.status.device_state ∧
    (usbd_init dev drv ep0size buffer bsize).status.control_state = dev.status.control_state :=
  ⟨rfl, rfl, rfl, rfl, rfl, rfl, rfl, rfl, rfl, rfl, rfl, rfl, rfl, rfl, rfl⟩

/-- C9: none of the six endpoint wrappers modifies any field of the device;
each forwards to exactly one driver-table operation, `usbd_ep_stall`
passing the stall flag 1 (true) and `usbd_ep_unstall` passing 0 (false) to
the driver's `ep_setstall`. -/
theorem ep_wrappers_frame (dev : usbd_device) (ep eptype epsize : Nat)
    (buf : Ptr) (blen : Nat) :
    ((usbd_ep_config dev ep eptype epsize).dev = dev ∧
      (usbd_ep_config dev ep eptype epsize).calls = [DrvCall.epConfig ep eptype epsize]) ∧
    ((usbd_ep_deconfig dev ep).dev = dev ∧
      (usbd_ep_deconfig dev ep).calls = [DrvCall.epDeconfig ep]) ∧
    ((usbd_ep_read dev ep buf blen).dev = dev ∧
      (usbd_ep_read dev ep buf blen).calls = [DrvCall.epRead ep buf blen]) ∧
    ((usbd_ep_write dev ep buf blen).dev = dev ∧
      (usbd_ep_write dev ep buf blen).calls = [DrvCall.epWrite ep buf blen]) ∧
    ((usbd_ep_stall dev ep).dev = dev ∧
      (usbd_ep_stall dev ep).calls = [DrvCall.epSetstall ep true]) ∧
    ((usbd_ep_unstall dev ep).dev = dev ∧
      (usbd_ep_unstall dev ep).calls = [DrvCall.epSetstall ep false]) :=
  ⟨⟨rfl, rfl⟩, ⟨rfl, rfl⟩, ⟨rfl, rfl⟩, ⟨rfl, rfl⟩, ⟨rfl, rfl⟩, ⟨rfl, rfl⟩⟩

/-- C10: usbd_reg_endpoint's masked write index is within the 8-entry
endpoint table for every 8-bit endpoint argument, whereas usbd_reg_event
writes the raw, unmasked index `evt`, which is within the 9-entry event
table only under the precondition `evt < usbd_evt_count`. -/
theorem reg_write_bounds (ep evt : Nat) (hep : ep < 256)
    (hevt : evt < usbd_evt_count) :
    usbd_reg_endpoint_index ep < endpoint_table_size ∧
    usbd_reg_event_index evt = evt ∧
    usbd_reg_event_index evt < events_table_size := by
  refine ⟨?_, rfl, hevt⟩
  obtain ⟨h1, -⟩ := and7_facts ep hep
  simp only [usbd_reg_endpoint_index, endpoint_table_size, h1]
  exact Nat.mod_lt ep (by omega)

/-- Witness for C10 at endpoint address 0x81 and the last valid event. -/
theorem reg_write_bounds_witness :
    usbd_reg_endpoint_index 0x81 < endpoint_table_size ∧
    usbd_reg_event_index 8 = 8 ∧
    usbd_reg_event_index 8 < events_table_size :=
  reg_write_bounds 0x81 8 (by decide) (by decide)

/-- C6: any transition of the modelled control state machine that invokes
the hardware driver's `setaddr` starts from the `statusin` state on the
TX-complete event that finishes the STATUS stage, carries the address
deferred by the most recent (pre-empting) SETUP of that transfer, and
returns the machine to idle — so `setaddr` is never invoked before the
STATUS stage. -/
theorem setaddr_only_after_status (mps maxsize : Nat)
    (handler : CtlRequest → Option Nat) (m : CtlMachine) (e : Ep0Event)
    (a : Nat) (h : HwCall.setaddr a ∈ (ctlStep mps maxsize handler m e).2) :
    m.control_state = CtlState.statusin ∧ e = Ep0Event.eptx ∧
    m.pending_addr = some a ∧
    (ctlStep mps maxsize handler m e).1.control_state = CtlState.idle := by
  obtain ⟨cs, dc, pa⟩ := m
  cases e with
  | setup req =>
    exfalso
    simp only [ctlStep] at h
    split at h
    · simp at h
    · split at h
      · rcases hh : handler req with _ | L <;> simp [hh, ctlStall] at h
      · split at h
        · rcases hh : handler req with _ | L <;> simp [hh, ctlStall] at h
          split at h <;> simp at h
        · split at h <;> simp [ctlStall] at h
  | eptx =>
    cases cs with
    | txdata =>
      exfalso; simp only [ctlStep] at h; split at h <;> simp at h
    | ztxdata =>
      exfalso; simp only [ctlStep] at h; split at h <;> simp at h
    | lastdata => exfalso; simp [ctlStep] at h
    | statusin =>
      cases pa with
      | none => exfalso; simp [ctlStep] at h
      | some b =>
        simp only [ctlStep, List.mem_singleton, HwCall.setaddr.injEq] at h
        subst h
        exact ⟨rfl, rfl, rfl, rfl⟩
    | idle => exfalso; simp [ctlStep, ctlStall] at h
    | rxdata => exfalso; simp [ctlStep, ctlStall] at h
    | statusout => exfalso; simp [ctlStep, ctlStall] at h
  | eprx =>
    exfalso
    cases cs with
    | rxdata => simp only [ctlStep] at h; split at h <;> simp at h
    | statusout => simp [ctlStep] at h
    | idle => simp [ctlStep, ctlStall] at h
    | txdata => simp [ctlStep, ctlStall] at h
    | ztxdata => simp [ctlStep, ctlStall] at h
    | lastdata => simp [ctlStep, ctlStall] at h
    | statusin => simp [ctlStep, ctlStall] at h

/-- Witness for C6: completing the STATUS stage of a SET_ADDRESS transfer
with pending address 42. -/
theorem setaddr_only_after_status_witness :
    (⟨CtlState.statusin, 0, some 42⟩ : CtlMachine).control_state = CtlState.statusin ∧
    Ep0Event.eptx = Ep0Event.eptx ∧
    (⟨CtlState.statusin, 0, some 42⟩ : CtlMachine).pending_addr = some 42 ∧
    (ctlStep 8 56 sampleHandler ⟨CtlState.statusin, 0, some 42⟩ Ep0Event.eptx).1.control_state
      = CtlState.idle :=
  setaddr_only_after_status 8 56 sampleHandler ⟨CtlState.statusin, 0, some 42⟩
    Ep0Event.eptx 42 (by decide)

/-- Splitting a call trace splits its zero-length-packet count. -/
theorem countZLP_append (xs ys : List HwCall) :
    countZLP (xs ++ ys) = countZLP xs + countZLP ys := by
  simp [countZLP, List.filter_append]

/-- A DATA-IN stage started in `txdata` (the armed length is short or
equals `wLength`) never writes a zero-length packet before `statusout`. -/
theorem countZLP_txdata (mps maxsize : Nat) (handler : CtlRequest → Option Nat)
    (hmps : 0 < mps) :
    ∀ fuel c p, 0 < c → c + 1 ≤ fuel →
      countZLP (ctlRunTx mps maxsize handler fuel ⟨.txdata, c, p⟩) = 0 := by
  intro fuel
  induction fuel with
  | zero => intro c p hc hf; omega
  | succ n ih =>
    intro c p hc hf
    have ht : 0 < min c mps := lt_min hc hmps
    simp only [ctlRunTx]
    rw [if_neg (by simp)]
    simp only [ctlStep]
    by_cases h0 : c - min c mps = 0
    · rw [if_pos ⟨h0, by simp⟩]
      simp only
      rw [countZLP_append, ctlRunTx_lastdata mps maxsize handler n 0 p (by omega)]
      simp [countZLP]
      omega
    · rw [if_neg (fun hh => h0 hh.1)]
      simp only
      rw [countZLP_append, ih (c - min c mps) p (by omega) (by omega)]
      simp [countZLP]
      omega

/-- A DATA-IN stage started in `ztxdata` (the armed length is a nonzero
multiple of the max packet size, below `wLength`) writes exactly one
zero-length packet before `statusout`. -/
theorem countZLP_ztxdata (mps maxsize : Nat) (handler : CtlRequest → Option Nat)
    (hmps : 0 < mps) :
    ∀ fuel c p, c % mps = 0 → c / mps + 2 ≤ fuel →
      countZLP (ctlRunTx mps maxsize handler fuel ⟨.ztxdata, c, p⟩) = 1 := by
  intro fuel
  induction fuel with
  | zero => intro c p hmod hf; exact absurd hf (Nat.not_succ_le_zero (c / mps + 1))
  | succ n ih =>
    intro c p hmod hf
    simp only [ctlRunTx]
    rw [if_neg (by simp)]
    simp only [ctlStep]
    rcases Nat.eq_zero_or_pos c with hc | hc
    · subst hc
      have hf' : 1 ≤ n := by
        rw [Nat.zero_div] at hf
        omega
      rw [if_pos ⟨by simp, Or.inr (by simpa using hmps)⟩]
      simp only
      rw [countZLP_append,
        ctlRunTx_lastdata mps maxsize handler n 0 p hf']
      simp [countZLP]
    · have hdvd : mps ∣ c := Nat.dvd_of_mod_eq_zero hmod
      have hge : mps ≤ c := Nat.le_of_dvd hc hdvd
      have hmin : min c mps = mps := min_eq_right hge
      have hcond : ¬(c - min c mps = 0 ∧
          (CtlState.ztxdata = CtlState.txdata ∨ min c mps < mps)) := by
        rintro ⟨-, h | h⟩
        · exact CtlState.noConfusion h
        · rw [hmin] at h; omega
      rw [if_neg hcond]
      simp only
      obtain ⟨k, hk⟩ := hdvd
      have hkpos : 0 < k := by
        rcases Nat.eq_zero_or_pos k with h | h
        · subst h
          rw [Nat.mul_zero] at hk
          omega
        · exact h
      have hdiv : c / mps = k := by
        rw [hk, Nat.mul_div_cancel_left k hmps]
      have hsub : c - mps = mps * (k - 1) := by
        rw [hk, Nat.mul_sub]
        omega
      have hmod' : (c - mps) % mps = 0 := by
        rw [hsub]
        exact Nat.mul_mod_right mps (k - 1)
      have hdiv' : (c - mps) / mps = k - 1 := by
        rw [hsub, Nat.mul_div_cancel_left _ hmps]
      rw [hdiv] at hf
      rw [countZLP_append, hmin,
        ih (c - mps) p hmod' (by rw [hdiv']; omega)]
      simp [countZLP]
      omega

/-- C7: for an accepted DATA-IN control transfer with response length `L`,
exactly one zero-length packet is transmitted before entering `statusout`
if and only if `L` is an exact multiple of the control endpoint's max
packet size and strictly less than the request's `wLength`; otherwise no
extra zero-length packet is sent. -/
theorem ctl_datain_zlp (mps maxsize L fuel : Nat)
    (handler : CtlRequest → Option Nat) (req : CtlRequest)
    (hmps : 0 < mps) (hw : 0 < req.wLength)
    (hdir : req.bmRequestType &&& USB_REQ_DIRECTION ≠ 0)
    (hh : handler req = some L) (hL : L ≤ req.wLength)
    (hfuel : L + 2 ≤ fuel) :
    countZLP (ctlRunTx mps maxsize handler fuel
        (ctlStep mps maxsize handler ctlIdle (Ep0Event.setup req)).1) =
      if L % mps = 0 ∧ L < req.wLength then 1 else 0 := by
  have hsa : isSetAddress req = false := by
    simp only [isSetAddress, Bool.and_eq_false_iff, beq_eq_false_iff_ne]
    right
    omega
  have hw0 : ¬((req.wLength == 0) = true) := by
    simp only [beq_iff_eq]
    omega
  have hmin : min L req.wLength = L := min_eq_left hL
  have hstep : (ctlStep mps maxsize handler ctlIdle (Ep0Event.setup req)).1 =
      if L % mps = 0 ∧ L < req.wLength then
        (⟨CtlState.ztxdata, L, none⟩ : CtlMachine)
      else ⟨CtlState.txdata, L, none⟩ := by
    simp only [ctlStep, hsa, Bool.false_eq_true, if_false, if_neg hw0,
      if_pos hdir, hh, hmin]
    split <;> rfl
  rw [hstep]
  by_cases hcond : L % mps = 0 ∧ L < req.wLength
  · rw [if_pos hcond, if_pos hcond]
    exact countZLP_ztxdata mps maxsize handler hmps fuel L none hcond.1
      (by have := Nat.div_le_self L mps; omega)
  · have hLpos : 0 < L := by
      rcases Nat.eq_zero_or_pos L with h | h
      · exact absurd ⟨by simp [h], by omega⟩ hcond
      · exact h
    rw [if_neg hcond, if_neg hcond]
    exact countZLP_txdata mps maxsize handler hmps fuel L none hLpos (by omega)

/-- Witness for C7: an 8-byte response to a 16-byte request on an 8-byte
control endpoint needs exactly one ZLP. -/
theorem ctl_datain_zlp_witness :
    countZLP (ctlRunTx 8 56 sampleHandler 12
        (ctlStep 8 56 sampleHandler ctlIdle (Ep0Event.setup sampleInReq)).1) =
      if 8 % 8 = 0 ∧ 8 < sampleInReq.wLength then 1 else 0 :=
  ctl_datain_zlp 8 56 8 12 sampleHandler sampleInReq (by decide) (by decide)
    (by decide) rfl (by decide) (by decide)

end Usbd
